import Mathlib

/-!
# Shallow embedding of the `bedrock` SPI flash simulator

This file embeds the C++ sources of the `spi-flash` repository
(`src/flash_sim.hpp`, `src/flash_sim.cpp`, `src/flash.hpp`, `src/flash.cpp`,
`src/flash.ipp`) as Lean definitions and proves properties of them.

Modelling conventions:
* C++ `std::byte` values are `Nat` kept below 256 by explicit `% 256` at the
  points the source truncates; `std::uint32_t` accumulators use `% 2 ^ 32`.
* A C++ member function that may `throw` becomes a function returning the
  post-call object state together with `Option flash_error`; the returned
  state carries exactly the mutations the C++ function performed before the
  throw (C++ exceptions abort the rest of the function body but keep any
  mutation already made to the object).
* `std::vector<std::byte>` becomes `List Nat`; the simulator's backing store
  `_data` and the page-write buffer `_write_buffer` are such lists.
* Decrement of a `std::uint8_t` counter is modelled with wraparound
  (`(n + 255) % 256`), matching unsigned arithmetic in the source.
-/

set_option maxRecDepth 100000

namespace bedrock

/-- `flash::pin_state` from `src/flash.hpp`. -/
inductive pin_state
  | high
  | low
  deriving DecidableEq, Repr

/-- `flash_sim::chip_state` from `src/flash_sim.hpp`. -/
inductive chip_state
  | deselected
  | command
  | operation
  deriving DecidableEq, Repr

/-- `flash::user_operation` from `src/flash.hpp`. -/
inductive user_operation
  | toggle_chip_enable
  | toggle_serial_input
  | toggle_clock
  | wait_for_write_complete
  deriving DecidableEq, Repr

/-- The distinct failure conditions raised (as C++ exceptions) by the
simulator, named after the spec's error taxonomy.  `out_of_range` is the
`std::out_of_range` thrown by `_flash._data.at(...)` in
`write_operation::toggle_clock_impl`; `in_operation_without_operation` is the
defensive `std::logic_error` in `flash_sim::toggle_chip_enable` /
`flash_sim::toggle_clock`. -/
inductive flash_error
  | invalid_transition
  | unknown_opcode
  | write_enable_required
  | already_write_enabled
  | non_erased_byte_write
  | buffer_full
  | address_not_ready
  | clock_not_applicable
  | out_of_range
  | in_operation_without_operation
  deriving DecidableEq, Repr

/-- The `_address` / `_bit_index` members of
`flash_sim::operation_with_address` (`src/flash_sim.hpp`).  The bit index is
initialised to 12 in the constructor (`src/flash_sim.cpp:150`). -/
structure addr_state where
  address : Nat
  bit_index : Nat
  deriving DecidableEq, Repr

/-- The members of `flash_sim::write_operation`: the inherited address state,
the 256-byte `_write_buffer`, the `_current_byte` iterator (modelled as an
index into the buffer), and the per-byte `_bit_index` counter. -/
structure write_state where
  addr : addr_state
  write_buffer : List Nat
  current_byte : Nat
  bit_index : Nat
  deriving DecidableEq, Repr

/-- The tagged union of the four `flash_sim::operation` subclasses.
`read` and `write` carry the state their C++ objects hold; `write_enable` and
`chip_erase` hold no state of their own. -/
inductive operation
  | read (a : addr_state)
  | write (w : write_state)
  | write_enable
  | chip_erase
  deriving DecidableEq, Repr

/-- The member state of `flash_sim` (`src/flash_sim.hpp`).  `operation` is the
`_operation` unique pointer (`none` = null), `data` is `_data`, and
`user_operations` is the operation log. -/
structure flash_sim where
  chip_enable : pin_state
  serial_input : pin_state
  serial_output : pin_state
  chip_state : chip_state
  write_enabled : Bool
  bit_index : Nat
  instruction_register : Nat
  operation : Option operation
  data : List Nat
  user_operations : List user_operation
  deriving DecidableEq, Repr

/-- The `flash_sim(num_bytes)` constructor (`src/flash_sim.cpp:17`): chip
enable high, serial pins low, deselected, write disabled, bit index 0,
instruction register 0, no operation, `num_bytes` bytes all zero, empty log. -/
def flash_sim.init (num_bytes : Nat) : flash_sim :=
  { chip_enable := .high
    serial_input := .low
    serial_output := .low
    chip_state := .deselected
    write_enabled := false
    bit_index := 0
    instruction_register := 0
    operation := none
    data := List.replicate num_bytes 0
    user_operations := [] }

/-- `flash_sim::operation_with_address::toggle_clock` while `_bit_index != 0`
(`src/flash_sim.cpp:164`): shift the current serial-input bit into `_address`
MSB-first and decrement the counter.  `_address` is a `std::uint32_t`. -/
def accum_address (a : addr_state) (si : pin_state) : addr_state :=
  { address := (a.address |||
        (((if si = pin_state.high then 1 else 0) <<< (a.bit_index - 1)) % 2 ^ 32)) % 2 ^ 32
    bit_index := a.bit_index - 1 }

/-- Copy `src` into `dst` starting at index `start`
(`std::copy(begin(buf), end(buf), begin(data) + start)` in
`write_operation::toggle_chip_enable_impl`, `src/flash_sim.cpp:205`).
Destination positions past the end of `dst` (undefined behaviour in the C++)
are dropped here; no theorem below exercises that case. -/
def copy_into (dst : List Nat) (start : Nat) (src : List Nat) : List Nat :=
  dst.mapIdx fun i b =>
    if start ≤ i ∧ i < start + src.length then src.getD (i - start) 0 else b

/-- `write_operation::toggle_chip_enable_impl` (`src/flash_sim.cpp:203`):
copies the entire write buffer into `_data` starting at offset
`_write_buffer.size()` (that is, at fixed offset 256 — not at the clocked-in
address), then clears the write-enable flag. -/
def write_commit (w : write_state) (f : flash_sim) : flash_sim :=
  { f with
    data := copy_into f.data w.write_buffer.length w.write_buffer
    write_enabled := false }

/-- `write_operation::toggle_clock_impl` (`src/flash_sim.cpp:209`): fail if
the buffer iterator is at the end; if starting a new byte (`_bit_index == 8`)
check `_data.at(address() + byte_index)` (out-of-range access throws, a
non-0xFF byte fails the erase-before-write check); then OR the serial-input
bit into the current buffer byte MSB-first and advance. -/
def write_clock_impl (w : write_state) (f : flash_sim) : Except flash_error write_state :=
  if w.current_byte = w.write_buffer.length then
    .error .buffer_full
  else if w.bit_index = 8 ∧ ¬ w.addr.address + w.current_byte < f.data.length then
    .error .out_of_range
  else if w.bit_index = 8 ∧ f.data.getD (w.addr.address + w.current_byte) 0 ≠ 0xff then
    .error .non_erased_byte_write
  else
    let new_bit := (w.bit_index + 255) % 256
    let updated := w.write_buffer.getD w.current_byte 0 |||
        (((if f.serial_input = pin_state.high then 1 else 0) <<< new_bit) % 256)
    let buf := w.write_buffer.set w.current_byte updated
    if new_bit = 0 then
      .ok { w with write_buffer := buf, current_byte := w.current_byte + 1, bit_index := 8 }
    else
      .ok { w with write_buffer := buf, bit_index := new_bit }

/-- Dispatch on the clock toggle reaching an active operation: the virtual
`operation::toggle_clock` calls (`src/flash_sim.cpp:161`, 187, 209, 243, 266).
For address-based operations a nonzero address counter accumulates an address
bit; `read_operation::toggle_clock_impl` is an empty body; write-enable and
chip-erase always fail.  None of these mutate the `flash_sim` members, so only
the operation's own state is returned. -/
def op_toggle_clock (op : operation) (f : flash_sim) : Except flash_error operation :=
  match op with
  | .write_enable => .error .clock_not_applicable
  | .chip_erase => .error .clock_not_applicable
  | .read a =>
      if a.bit_index ≠ 0 then .ok (.read (accum_address a f.serial_input))
      else .ok (.read a)
  | .write w =>
      if w.addr.bit_index ≠ 0 then .ok (.write { w with addr := accum_address w.addr f.serial_input })
      else (write_clock_impl w f).map .write

/-- Dispatch on the chip-enable toggle reaching an active operation: the
virtual `operation::toggle_chip_enable` calls (`src/flash_sim.cpp:154`, 185,
203, 236, 259).  Address-based operations first fail if the address counter is
nonzero; write-enable fails if the flag is already set, else sets it;
chip-erase fills `_data` with 0xFF and clears the flag; read does nothing;
page-write commits its buffer via `write_commit`. -/
def op_toggle_chip_enable (op : operation) (f : flash_sim) : Except flash_error flash_sim :=
  match op with
  | .write_enable =>
      if f.write_enabled then .error .already_write_enabled
      else .ok { f with write_enabled := true }
  | .chip_erase =>
      .ok { f with data := f.data.map fun _ => 0xff, write_enabled := false }
  | .read a =>
      if a.bit_index ≠ 0 then .error .address_not_ready else .ok f
  | .write w =>
      if w.addr.bit_index ≠ 0 then .error .address_not_ready
      else .ok (write_commit w f)

/-- The `_operation_map` lookup plus operation construction
(`src/flash_sim.cpp:10` and the four constructors): `0x02` builds a
`write_operation` (address counter 12, zeroed 256-byte buffer, byte bit
counter 8; requires write enable), `0x03` a `read_operation` (address counter
12), `0x06` a `write_enable_operation`, `0x60` a `chip_erase_operation`
(requires write enable); any other byte fails with an unknown opcode. -/
def dispatch_opcode (ir : Nat) (f : flash_sim) : Except flash_error operation :=
  if ir = 0x02 then
    if f.write_enabled then
      .ok (.write { addr := { address := 0, bit_index := 12 }
                    write_buffer := List.replicate 256 0
                    current_byte := 0
                    bit_index := 8 })
    else .error .write_enable_required
  else if ir = 0x03 then
    .ok (.read { address := 0, bit_index := 12 })
  else if ir = 0x06 then
    .ok .write_enable
  else if ir = 0x60 then
    if f.write_enabled then .ok .chip_erase else .error .write_enable_required
  else .error .unknown_opcode

/-- `flash_sim::toggle_chip_enable` (`src/flash_sim.cpp:60`). -/
def toggle_chip_enable (f : flash_sim) : flash_sim × Option flash_error :=
  match f.chip_state with
  | .deselected =>
      ({ f with
          user_operations := f.user_operations ++ [.toggle_chip_enable]
          chip_state := .command
          bit_index := 8 }, none)
  | .command => (f, some .invalid_transition)
  | .operation =>
      match f.operation with
      | none => (f, some .in_operation_without_operation)
      | some op =>
          match op_toggle_chip_enable op
              { f with user_operations := f.user_operations ++ [.toggle_chip_enable] } with
          | .error e =>
              ({ f with user_operations := f.user_operations ++ [.toggle_chip_enable] }, some e)
          | .ok f2 =>
              ({ f2 with
                  operation := none
                  instruction_register := 0
                  chip_state := .deselected }, none)

/-- `flash_sim::toggle_serial_input` (`src/flash_sim.cpp:85`). -/
def toggle_serial_input (f : flash_sim) : flash_sim × Option flash_error :=
  match f.chip_state with
  | .deselected => (f, some .invalid_transition)
  | .command | .operation =>
      if f.user_operations.getLast? = some .toggle_serial_input then
        (f, some .invalid_transition)
      else
        ({ f with
            user_operations := f.user_operations ++ [.toggle_serial_input]
            serial_input :=
              if f.serial_input = pin_state.high then pin_state.low else pin_state.high },
          none)

/-- `flash_sim::toggle_clock` (`src/flash_sim.cpp:104`).  In the command state
the log is appended, the serial-input bit is shifted into the instruction
register at position `--_bit_index` (unsigned, so wrapping), and once the
counter hits zero the opcode is dispatched — a dispatch failure therefore
happens after the log append and register update. -/
def toggle_clock (f : flash_sim) : flash_sim × Option flash_error :=
  match f.chip_state with
  | .deselected => (f, some .invalid_transition)
  | .command =>
      if (f.bit_index + 255) % 256 = 0 then
        match dispatch_opcode
            (f.instruction_register |||
              (((if f.serial_input = pin_state.high then 1 else 0) <<<
                  ((f.bit_index + 255) % 256)) % 256))
            { f with
                user_operations := f.user_operations ++ [.toggle_clock]
                bit_index := (f.bit_index + 255) % 256
                instruction_register := f.instruction_register |||
                  (((if f.serial_input = pin_state.high then 1 else 0) <<<
                      ((f.bit_index + 255) % 256)) % 256) } with
        | .error e =>
            ({ f with
                user_operations := f.user_operations ++ [.toggle_clock]
                bit_index := (f.bit_index + 255) % 256
                instruction_register := f.instruction_register |||
                  (((if f.serial_input = pin_state.high then 1 else 0) <<<
                      ((f.bit_index + 255) % 256)) % 256) }, some e)
        | .ok op =>
            ({ f with
                user_operations := f.user_operations ++ [.toggle_clock]
                bit_index := (f.bit_index + 255) % 256
                instruction_register := f.instruction_register |||
                  (((if f.serial_input = pin_state.high then 1 else 0) <<<
                      ((f.bit_index + 255) % 256)) % 256)
                operation := some op
                chip_state := .operation }, none)
      else
        ({ f with
            user_operations := f.user_operations ++ [.toggle_clock]
            bit_index := (f.bit_index + 255) % 256
            instruction_register := f.instruction_register |||
              (((if f.serial_input = pin_state.high then 1 else 0) <<<
                  ((f.bit_index + 255) % 256)) % 256) }, none)
  | .operation =>
      match f.operation with
      | none => (f, some .in_operation_without_operation)
      | some op =>
          match op_toggle_clock op
              { f with user_operations := f.user_operations ++ [.toggle_clock] } with
          | .error e =>
              ({ f with user_operations := f.user_operations ++ [.toggle_clock] }, some e)
          | .ok op' =>
              ({ f with
                  user_operations := f.user_operations ++ [.toggle_clock]
                  operation := some op' }, none)

/-- `flash_sim::wait_for_write_complete` (`src/flash_sim.cpp:131`): an empty
body — no state change and no log append. -/
def wait_for_write_complete (f : flash_sim) : flash_sim × Option flash_error :=
  (f, none)

/-- `flash::perform_user_operation` (`src/flash.cpp:6`). -/
def perform_user_operation (f : flash_sim) (op : user_operation) : flash_sim × Option flash_error :=
  match op with
  | .toggle_chip_enable => toggle_chip_enable f
  | .toggle_serial_input => toggle_serial_input f
  | .toggle_clock => toggle_clock f
  | .wait_for_write_complete => wait_for_write_complete f

/-- Run a sequence of user operations, stopping with `none` at the first call
that reports an error (a caller that lets the C++ exception propagate). -/
def run (f : flash_sim) : List user_operation → Option flash_sim
  | [] => some f
  | op :: ops =>
      match perform_user_operation f op with
      | (f', none) => run f' ops
      | (_, some _) => none

/-- Run a sequence of user operations keeping the post-call state of every
call, including failing ones (a caller that catches each exception and
continues, which the C++ object permits). -/
def run_all (f : flash_sim) (ops : List user_operation) : flash_sim :=
  ops.foldl (fun g op => (perform_user_operation g op).1) f

/-- `flash::user_operation_to_char` (`src/flash.cpp:17`).  The C++ `default:`
branch is unreachable for the four enum values, so the function is total. -/
def user_operation_to_char : user_operation → Char
  | .toggle_chip_enable => 'e'
  | .toggle_serial_input => 'i'
  | .toggle_clock => 'c'
  | .wait_for_write_complete => 'w'

/-- `flash::char_to_user_operation` (`src/flash.cpp:29`); the `default:`
throw is modelled as `none`. -/
def char_to_user_operation (c : Char) : Option user_operation :=
  if c = 'e' then some .toggle_chip_enable
  else if c = 'i' then some .toggle_serial_input
  else if c = 'c' then some .toggle_clock
  else if c = 'w' then some .wait_for_write_complete
  else none

/-- `flash::clock_in_data` (`src/flash.ipp:8`): for each bit from the MSB
down, toggle serial-input when its current level differs from the bit, then
toggle the clock; an error from either toggle propagates. -/
def clock_in_data (num_bits : Nat) (d : Nat) (f : flash_sim) : flash_sim × Option flash_error :=
  match num_bits with
  | 0 => (f, none)
  | n + 1 =>
      match (if (d &&& (1 <<< n) ≠ 0 ∧ f.serial_input = pin_state.low) ∨
                (d &&& (1 <<< n) = 0 ∧ f.serial_input = pin_state.high) then
               toggle_serial_input f
             else (f, none)) with
      | (f1, some e) => (f1, some e)
      | (f1, none) =>
          match toggle_clock f1 with
          | (f2, some e) => (f2, some e)
          | (f2, none) => clock_in_data n d f2

/-- `flash::clock_out_data` (`src/flash.ipp:22`): for each bit from the MSB
down, sample the serial-output pin into the value, then toggle the clock. -/
def clock_out_data (num_bits : Nat) (f : flash_sim) (value : Nat) :
    flash_sim × Nat × Option flash_error :=
  match num_bits with
  | 0 => (f, value, none)
  | n + 1 =>
      let value' := if f.serial_output = pin_state.high then value ||| (1 <<< n) else value
      match toggle_clock f with
      | (f1, none) => clock_out_data n f1 value'
      | (f1, some e) => (f1, value', some e)

/-- Sequence two chip-driving steps, propagating the first error. -/
def and_then (p : flash_sim × Option flash_error)
    (g : flash_sim → flash_sim × Option flash_error) : flash_sim × Option flash_error :=
  match p with
  | (f, none) => g f
  | (f, some e) => (f, some e)

/-- Spec Scenario B drive: from a fresh chip of the given capacity, perform a
write-enable command (opcode `0x06`) and then a chip-erase command (opcode
`0x60`), each bracketed by chip-enable toggles. -/
def scenario_b (cap : Nat) : flash_sim × Option flash_error :=
  and_then (toggle_chip_enable (flash_sim.init cap)) fun f =>
  and_then (clock_in_data 8 0x06 f) fun f =>
  and_then (toggle_chip_enable f) fun f =>
  and_then (toggle_chip_enable f) fun f =>
  and_then (clock_in_data 8 0x60 f) fun f =>
  toggle_chip_enable f

/-- Spec Scenario C drive: continue from Scenario B with a write-enable
command, then a page-write command — opcode `0x02`, a 24-bit address
`0x000010`, one data byte `0xAB` — ended by a chip-enable toggle. -/
def scenario_c (cap : Nat) : flash_sim × Option flash_error :=
  and_then (scenario_b cap) fun f =>
  and_then (toggle_chip_enable f) fun f =>
  and_then (clock_in_data 8 0x06 f) fun f =>
  and_then (toggle_chip_enable f) fun f =>
  and_then (toggle_chip_enable f) fun f =>
  and_then (clock_in_data 8 0x02 f) fun f =>
  and_then (clock_in_data 24 0x000010 f) fun f =>
  and_then (clock_in_data 8 0xab f) fun f =>
  toggle_chip_enable f

/-- A read drive: after Scenario B (all bytes `0xFF`), start a read command —
opcode `0x03`, a 12-bit address `0x000` — and clock out 8 bits. -/
def scenario_read (cap : Nat) : flash_sim × Nat × Option flash_error :=
  match (and_then (scenario_b cap) fun f =>
         and_then (toggle_chip_enable f) fun f =>
         and_then (clock_in_data 8 0x03 f) fun f =>
         clock_in_data 12 0x000 f) with
  | (f, some e) => (f, 0, some e)
  | (f, none) => clock_out_data 8 f 0

/-- A drive that clocks in the unrecognized opcode byte `0xFF` (spec Scenario
E): chip-enable toggle, one serial-input toggle to raise the data pin, then
seven clock toggles; the eighth clock toggle completing the instruction
register is issued separately by the theorems using this drive. -/
def unknown_opcode_drive : List user_operation :=
  [.toggle_chip_enable, .toggle_serial_input,
   .toggle_clock, .toggle_clock, .toggle_clock, .toggle_clock,
   .toggle_clock, .toggle_clock, .toggle_clock]

/-- A chip mid-command: serial input low, one clock toggle away from
completing the instruction register as `ir`, write enable as given. -/
def command_chip (we : Bool) (ir : Nat) : flash_sim :=
  { chip_enable := .high
    serial_input := .low
    serial_output := .low
    chip_state := .command
    write_enabled := we
    bit_index := 1
    instruction_register := ir
    operation := none
    data := [0, 0]
    user_operations := [.toggle_chip_enable] }

/-- A page-write operation state with a completed zero address, a zeroed
256-byte buffer, and the given byte cursor and bit counter. -/
def write_st (cb bi : Nat) : write_state :=
  { addr := { address := 0, bit_index := 0 }
    write_buffer := List.replicate 256 0
    current_byte := cb
    bit_index := bi }

/-- A chip in the operation state running a page write over the given
backing data. -/
def write_chip (w : write_state) (dat : List Nat) : flash_sim :=
  { chip_enable := .high
    serial_input := .low
    serial_output := .low
    chip_state := .operation
    write_enabled := true
    bit_index := 0
    instruction_register := 0x02
    operation := some (.write w)
    data := dat
    user_operations := [.toggle_chip_enable] }

/-!
## Theorems
-/

/-- C9: `user_operation_to_char` maps the four user operations to `'e'`,
`'i'`, `'c'`, `'w'` respectively; `char_to_user_operation` inverts it on every
user operation; and `char_to_user_operation` fails for every character outside
`{'e','i','c','w'}`. -/
theorem C9_user_operation_char_encoding :
    (user_operation_to_char .toggle_chip_enable = 'e' ∧
     user_operation_to_char .toggle_serial_input = 'i' ∧
     user_operation_to_char .toggle_clock = 'c' ∧
     user_operation_to_char .wait_for_write_complete = 'w') ∧
    (∀ op : user_operation, char_to_user_operation (user_operation_to_char op) = some op) ∧
    (∀ c : Char, c ≠ 'e' → c ≠ 'i' → c ≠ 'c' → c ≠ 'w' →
      char_to_user_operation c = none) := by
  refine ⟨⟨rfl, rfl, rfl, rfl⟩, fun op => by cases op <;> rfl, fun c h1 h2 h3 h4 => ?_⟩
  simp [char_to_user_operation, h1, h2, h3, h4]

/-- Witness for C9: the round trip at `toggle_clock` and rejection of `'x'`. -/
theorem C9_user_operation_char_encoding_witness :
    char_to_user_operation (user_operation_to_char .toggle_clock) =
      some user_operation.toggle_clock ∧
    char_to_user_operation 'x' = none :=
  ⟨C9_user_operation_char_encoding.2.1 .toggle_clock,
   C9_user_operation_char_encoding.2.2 'x' (by decide) (by decide) (by decide) (by decide)⟩

/-- C8 counterexample: the claim says a `wait_for_write_complete` call appends
the `WaitForWriteComplete` token to the operation log; on a freshly
constructed chip the log stays empty instead. -/
theorem C8_wait_appends_counterexample :
    ¬ (wait_for_write_complete (flash_sim.init 1)).1.user_operations =
        (flash_sim.init 1).user_operations ++ [user_operation.wait_for_write_complete] := by
  decide

/-- C8 (amended): a `wait_for_write_complete` call always succeeds and leaves
the entire chip state — including the operation log, to which it appends
nothing — unchanged. -/
theorem C8_wait_for_write_complete_noop (f : flash_sim) :
    wait_for_write_complete f = (f, none) := rfl

/-- Witness for C8 (amended) at a concrete chip. -/
theorem C8_wait_for_write_complete_noop_witness :
    wait_for_write_complete (flash_sim.init 2) = (flash_sim.init 2, none) :=
  C8_wait_for_write_complete_noop (flash_sim.init 2)

/-- C1: evaluating the code on the claim's own Scenario C input (erased
chip, write-enable, opcode `0x02`, 24-bit address `0x000010`, one data byte
`0xAB`, chip-enable toggle; capacity 520 suffices to cover every byte the
command touches) shows the command completes without error but
`MemoryArray[0x10]` is still `0xFF`, while the 256-byte write buffer was
copied to the fixed offset 256 — `0x01 0x0A 0xB0` at `0x100`–`0x102` (only
the low 12 of the 24 clocked bits became the address; the rest became data)
followed by zeros through `0x1FF`, clobbering bytes the claim says are
unchanged.  `WriteEnableFlag` is cleared as claimed. -/
theorem C1_page_write_commit_divergence :
    (scenario_c 520).2 = none ∧
    (scenario_c 520).1.data.getD 0x10 0 = 0xff ∧
    (scenario_c 520).1.data.getD 0x100 0 = 0x01 ∧
    (scenario_c 520).1.data.getD 0x101 0 = 0x0a ∧
    (scenario_c 520).1.data.getD 0x102 0 = 0xb0 ∧
    (scenario_c 520).1.data.getD 0x110 0 = 0x00 ∧
    (scenario_c 520).1.data.getD 0x1ff 0 = 0x00 ∧
    (scenario_c 520).1.write_enabled = false := by
  decide

/-- C2: evaluating the code on a read drive (erased chip, so every byte is
`0xFF`; opcode `0x03`, 12-bit address `0x000`, then eight clocked-out bits)
shows the read completes without error but the clocked-out byte is `0x00`
and the serial-output pin was never driven, even though
`MemoryArray[0] = 0xFF`: `read_operation::toggle_clock_impl` has an empty
body, contradicting its own documentation. -/
theorem C2_read_outputs_nothing :
    (scenario_read 20).2.2 = none ∧
    (scenario_read 20).2.1 = 0x00 ∧
    (scenario_read 20).1.data.getD 0 0 = 0xff ∧
    (scenario_read 20).1.serial_output = pin_state.low := by
  decide

/-- C3 counterexample: the clock toggle that completes the unrecognized
opcode `0xFF` fails, yet its token has already been appended to the
operation log — contradicting the claim that a failing pin toggle appends
nothing. -/
theorem C3_failed_call_appends_counterexample :
    (toggle_clock (run_all (flash_sim.init 4) unknown_opcode_drive)).2 =
      some flash_error.unknown_opcode ∧
    ¬ (toggle_clock (run_all (flash_sim.init 4) unknown_opcode_drive)).1.user_operations =
        (run_all (flash_sim.init 4) unknown_opcode_drive).user_operations := by
  decide

/-- C4 counterexample: after the unrecognized opcode `0xFF` fails, the chip
sits in the command state, and the subsequent chip-enable toggle does not
reset it to deselected — it fails with an invalid transition and leaves the
chip in the command state. -/
theorem C4_no_reset_counterexample :
    (toggle_chip_enable (toggle_clock (run_all (flash_sim.init 4) unknown_opcode_drive)).1).2 =
      some flash_error.invalid_transition ∧
    ¬ (toggle_chip_enable
        (toggle_clock (run_all (flash_sim.init 4) unknown_opcode_drive)).1).1.chip_state =
        chip_state.deselected := by
  decide

/-- C5: for every chip state with the write-enable flag clear, the clock
toggle that completes the instruction register as `0x02` (page write) or
`0x60` (chip erase) fails with the write-enable-required error and leaves
every byte of the memory array unmodified. -/
theorem C5_write_enable_required (f : flash_sim)
    (hc : f.chip_state = chip_state.command) (hb : f.bit_index = 1)
    (hw : f.write_enabled = false)
    (hir : f.instruction_register ||| (if f.serial_input = pin_state.high then 1 else 0) = 0x02 ∨
           f.instruction_register ||| (if f.serial_input = pin_state.high then 1 else 0) = 0x60) :
    (toggle_clock f).2 = some flash_error.write_enable_required ∧
    (toggle_clock f).1.data = f.data := by
  obtain ⟨ce, si, so, cs, we, bi, ir, op, dat, log⟩ := f
  have hc' : cs = chip_state.command := hc
  have hb' : bi = 1 := hb
  have hw' : we = false := hw
  subst hc' hb' hw'
  cases si <;>
    rcases hir with hir | hir <;>
    simp_all [toggle_clock, dispatch_opcode]

/-- Witness for C5 at a concrete mid-command chip completing opcode `0x02`. -/
theorem C5_write_enable_required_witness :
    (toggle_clock (command_chip false 0x02)).2 = some flash_error.write_enable_required ∧
    (toggle_clock (command_chip false 0x02)).1.data = (command_chip false 0x02).data :=
  C5_write_enable_required _ rfl rfl rfl (Or.inl (by decide))

/-- C4 (amended): when a clock toggle completes the 8-bit instruction
register with a byte that is not one of `{0x02, 0x03, 0x06, 0x60}`, the call
fails with the unknown-opcode error and the chip remains in the command
state; a subsequent chip-enable toggle does not reset the chip — it fails
with an invalid transition and leaves the chip in the command state. -/
theorem C4_unknown_opcode_no_reset (f : flash_sim)
    (hc : f.chip_state = chip_state.command) (hb : f.bit_index = 1)
    (h2 : f.instruction_register ||| (if f.serial_input = pin_state.high then 1 else 0) ≠ 0x02)
    (h3 : f.instruction_register ||| (if f.serial_input = pin_state.high then 1 else 0) ≠ 0x03)
    (h6 : f.instruction_register ||| (if f.serial_input = pin_state.high then 1 else 0) ≠ 0x06)
    (h60 : f.instruction_register ||| (if f.serial_input = pin_state.high then 1 else 0) ≠ 0x60) :
    (toggle_clock f).2 = some flash_error.unknown_opcode ∧
    (toggle_clock f).1.chip_state = chip_state.command ∧
    toggle_chip_enable (toggle_clock f).1 =
      ((toggle_clock f).1, some flash_error.invalid_transition) := by
  obtain ⟨ce, si, so, cs, we, bi, ir, op, dat, log⟩ := f
  have hc' : cs = chip_state.command := hc
  have hb' : bi = 1 := hb
  subst hc' hb'
  cases si <;>
    simp_all [toggle_clock, toggle_chip_enable, dispatch_opcode]

/-- Witness for C4 (amended) at a concrete mid-command chip completing the
instruction register as `0xFF`. -/
theorem C4_unknown_opcode_no_reset_witness :
    (toggle_clock (command_chip false 0xff)).2 = some flash_error.unknown_opcode ∧
    (toggle_clock (command_chip false 0xff)).1.chip_state = chip_state.command ∧
    toggle_chip_enable (toggle_clock (command_chip false 0xff)).1 =
      ((toggle_clock (command_chip false 0xff)).1, some flash_error.invalid_transition) :=
  C4_unknown_opcode_no_reset _ rfl rfl (by decide) (by decide) (by decide) (by decide)

/-- Helper for C6: when the per-byte bit counter is not 8 (mid-byte), the
write clock handler never raises the erase-before-write failure. -/
theorem write_clock_impl_mid_byte (w : write_state) (f : flash_sim)
    (hb8 : w.bit_index ≠ 8) :
    write_clock_impl w f ≠ .error flash_error.non_erased_byte_write := by
  unfold write_clock_impl
  simp only [hb8, false_and, if_false]
  split
  · simp
  · split <;> simp

/-- C6: during a page write whose address is complete, the clock toggle that
would write the first bit of a new destination byte (per-byte bit counter at
8, buffer not exhausted, target index in range) fails with the
non-erased-byte error whenever the memory array byte at the target address
plus the byte cursor is not `0xFF`, regardless of the serial-input bit; and a
clock toggle mid-byte (bit counter not 8) never raises that error. -/
theorem C6_non_erased_byte_check :
    (∀ (f : flash_sim) (w : write_state),
      f.chip_state = chip_state.operation →
      f.operation = some (operation.write w) →
      w.addr.bit_index = 0 →
      w.current_byte ≠ w.write_buffer.length →
      w.bit_index = 8 →
      w.addr.address + w.current_byte < f.data.length →
      f.data.getD (w.addr.address + w.current_byte) 0 ≠ 0xff →
      (toggle_clock f).2 = some flash_error.non_erased_byte_write) ∧
    (∀ (f : flash_sim) (w : write_state),
      f.chip_state = chip_state.operation →
      f.operation = some (operation.write w) →
      w.addr.bit_index = 0 →
      w.bit_index ≠ 8 →
      (toggle_clock f).2 ≠ some flash_error.non_erased_byte_write) := by
  constructor
  · intro f w hc hop ha hfull hb8 hlt hne
    obtain ⟨ce, si, so, cs, we, bi, ir, op, dat, log⟩ := f
    have hc' : cs = chip_state.operation := hc
    have hop' : op = some (operation.write w) := hop
    subst hc' hop'
    simp_all [toggle_clock, op_toggle_clock, write_clock_impl, Except.map]
  · intro f w hc hop ha hb8
    obtain ⟨ce, si, so, cs, we, bi, ir, op, dat, log⟩ := f
    have hc' : cs = chip_state.operation := hc
    have hop' : op = some (operation.write w) := hop
    subst hc' hop'
    have hmid := write_clock_impl_mid_byte w
      { chip_enable := ce, serial_input := si, serial_output := so,
        chip_state := chip_state.operation, write_enabled := we, bit_index := bi,
        instruction_register := ir, operation := some (operation.write w), data := dat,
        user_operations := log ++ [user_operation.toggle_clock] } hb8
    simp only [toggle_clock, op_toggle_clock, ha]
    rcases hwc : write_clock_impl w
      { chip_enable := ce, serial_input := si, serial_output := so,
        chip_state := chip_state.operation, write_enabled := we, bit_index := bi,
        instruction_register := ir, operation := some (operation.write w), data := dat,
        user_operations := log ++ [user_operation.toggle_clock] } with e | w'
    · rw [hwc] at hmid
      simp_all [Except.map]
    · simp_all [Except.map]

/-- Witness for C6: a page write over `[0x12, 0xff]` at address 0 — the
first bit of the new byte is refused; mid-byte (bit counter 7) it is not. -/
theorem C6_non_erased_byte_check_witness :
    (toggle_clock (write_chip (write_st 0 8) [0x12, 0xff])).2 =
      some flash_error.non_erased_byte_write ∧
    ¬ (toggle_clock (write_chip (write_st 0 7) [0x12, 0xff])).2 =
      some flash_error.non_erased_byte_write :=
  ⟨C6_non_erased_byte_check.1 (write_chip (write_st 0 8) [0x12, 0xff]) (write_st 0 8)
      rfl rfl rfl (by decide) rfl (by decide) (by decide),
   C6_non_erased_byte_check.2 (write_chip (write_st 0 7) [0x12, 0xff]) (write_st 0 7)
      rfl rfl rfl (by decide)⟩


/-- Helper for C3: a failing serial-input toggle returns the chip unchanged. -/
theorem toggle_serial_input_fail (f f' : flash_sim) (e : flash_error)
    (h : toggle_serial_input f = (f', some e)) : f' = f := by
  unfold toggle_serial_input at h
  split at h
  · simp at h
    exact h.1.symm
  · split at h
    · simp at h
      exact h.1.symm
    · simp at h
  · split at h
    · simp at h
      exact h.1.symm
    · simp at h

/-- Helper for C3: a failing chip-enable toggle returns the chip unchanged or
with only its token appended to the log (the operation handlers run after the
append). -/
theorem toggle_chip_enable_fail (f f' : flash_sim) (e : flash_error)
    (h : toggle_chip_enable f = (f', some e)) :
    f' = f ∨
    f' = { f with user_operations := f.user_operations ++ [.toggle_chip_enable] } := by
  unfold toggle_chip_enable at h
  split at h
  · simp at h
  · simp at h
    exact Or.inl h.1.symm
  · split at h
    · simp at h
      exact Or.inl h.1.symm
    · split at h
      · simp at h
        exact Or.inr h.1.symm
      · simp at h

/-- Helper for C3: a failing clock toggle returns the chip unchanged, or with
only its token appended, or — when the failure arises in opcode dispatch —
with its token appended and the instruction register and bit counter
updated. -/
theorem toggle_clock_fail (f f' : flash_sim) (e : flash_error)
    (h : toggle_clock f = (f', some e)) :
    f' = f ∨
    f' = { f with user_operations := f.user_operations ++ [.toggle_clock] } ∨
    f' = { f with
            user_operations := f.user_operations ++ [.toggle_clock]
            bit_index := (f.bit_index + 255) % 256
            instruction_register := f.instruction_register |||
              (((if f.serial_input = pin_state.high then 1 else 0) <<<
                  ((f.bit_index + 255) % 256)) % 256) } := by
  unfold toggle_clock at h
  split at h
  · simp at h
    exact Or.inl h.1.symm
  · split at h
    · split at h
      · simp at h
        exact Or.inr (Or.inr h.1.symm)
      · simp at h
    · simp at h
  · split at h
    · simp at h
      exact Or.inl h.1.symm
    · split at h
      · simp at h
        exact Or.inr (Or.inl h.1.symm)
      · simp at h

/-- C3 (amended): for every pin-toggle call on the chip that fails,
MemoryArray, WriteEnableFlag, the chip state, all three pin states, and the
active operation equal their pre-call values; the Operation Log is either
unchanged or has gained exactly the call's token (the latter happens for
failures raised in opcode dispatch or in the active operation's handlers,
which run after the token is appended). -/
theorem C3_failure_preserves_core_state (f : flash_sim) (op : user_operation)
    (f' : flash_sim) (e : flash_error)
    (h : perform_user_operation f op = (f', some e)) :
    f'.data = f.data ∧ f'.write_enabled = f.write_enabled ∧
    f'.chip_state = f.chip_state ∧ f'.chip_enable = f.chip_enable ∧
    f'.serial_input = f.serial_input ∧ f'.serial_output = f.serial_output ∧
    f'.operation = f.operation ∧
    (f'.user_operations = f.user_operations ∨
     f'.user_operations = f.user_operations ++ [op]) := by
  cases op with
  | toggle_chip_enable =>
      rcases toggle_chip_enable_fail f f' e h with rfl | rfl <;> simp
  | toggle_serial_input =>
      obtain rfl := toggle_serial_input_fail f f' e h
      simp
  | toggle_clock =>
      rcases toggle_clock_fail f f' e h with rfl | rfl | rfl <;> simp
  | wait_for_write_complete =>
      exact absurd h (by simp [perform_user_operation, wait_for_write_complete])

/-- Witness for C3 (amended): a clock toggle on a fresh (deselected) chip
fails and leaves everything unchanged. -/
theorem C3_failure_preserves_core_state_witness :
    perform_user_operation (flash_sim.init 3) user_operation.toggle_clock =
      (flash_sim.init 3, some flash_error.invalid_transition) ∧
    ((flash_sim.init 3).data = (flash_sim.init 3).data ∧
     (flash_sim.init 3).write_enabled = (flash_sim.init 3).write_enabled ∧
     (flash_sim.init 3).chip_state = (flash_sim.init 3).chip_state ∧
     (flash_sim.init 3).chip_enable = (flash_sim.init 3).chip_enable ∧
     (flash_sim.init 3).serial_input = (flash_sim.init 3).serial_input ∧
     (flash_sim.init 3).serial_output = (flash_sim.init 3).serial_output ∧
     (flash_sim.init 3).operation = (flash_sim.init 3).operation ∧
     ((flash_sim.init 3).user_operations = (flash_sim.init 3).user_operations ∨
      (flash_sim.init 3).user_operations =
        (flash_sim.init 3).user_operations ++ [user_operation.toggle_clock])) :=
  ⟨rfl, C3_failure_preserves_core_state (flash_sim.init 3) user_operation.toggle_clock
      (flash_sim.init 3) flash_error.invalid_transition rfl⟩


/-- Helper for C7: a successful chip-enable completion handler does not touch
the operation log. -/
theorem op_toggle_chip_enable_ok_log (op : operation) (f f2 : flash_sim)
    (h : op_toggle_chip_enable op f = .ok f2) :
    f2.user_operations = f.user_operations := by
  cases op with
  | read a =>
      simp only [op_toggle_chip_enable] at h
      split at h
      · simp at h
      · simp at h
        rw [← h]
  | write w =>
      simp only [op_toggle_chip_enable] at h
      split at h
      · simp at h
      · simp at h
        rw [← h]
        simp [write_commit]
  | write_enable =>
      simp only [op_toggle_chip_enable] at h
      split at h
      · simp at h
      · simp at h
        rw [← h]
  | chip_erase =>
      simp only [op_toggle_chip_enable] at h
      simp at h
      rw [← h]

/-- Helper for C7: a successful pin-toggle call appends exactly its own token
to the operation log, except `wait_for_write_complete`, which appends
nothing. -/
theorem success_appends_log (f : flash_sim) (op : user_operation) (f' : flash_sim)
    (h : perform_user_operation f op = (f', none)) :
    f'.user_operations = f.user_operations ++
      (if op = user_operation.wait_for_write_complete then [] else [op]) := by
  cases op with
  | wait_for_write_complete =>
      simp [perform_user_operation, wait_for_write_complete] at h
      simp [← h]
  | toggle_serial_input =>
      simp only [perform_user_operation] at h
      unfold toggle_serial_input at h
      split at h
      · simp at h
      · split at h
        · simp at h
        · simp at h
          rw [← h]
          simp
      · split at h
        · simp at h
        · simp at h
          rw [← h]
          simp
  | toggle_chip_enable =>
      simp only [perform_user_operation] at h
      unfold toggle_chip_enable at h
      split at h
      · simp at h
        rw [← h]
        simp
      · simp at h
      · split at h
        · simp at h
        · split at h
          · simp at h
          · rename_i f2 heq
            simp at h
            rw [← h]
            simp [op_toggle_chip_enable_ok_log _ _ _ heq]
  | toggle_clock =>
      simp only [perform_user_operation] at h
      unfold toggle_clock at h
      split at h
      · simp at h
      · split at h
        · split at h
          · simp at h
          · simp at h
            rw [← h]
            simp
        · simp at h
          rw [← h]
          simp
      · split at h
        · simp at h
        · split at h
          · simp at h
          · simp at h
            rw [← h]
            simp

/-- Helper for C7: dropping `wait_for_write_complete` entries (which the chip
does not log) from a successful drive does not change the final state. -/
theorem run_drop_wait (ops : List user_operation) :
    ∀ f f' : flash_sim, run f ops = some f' →
      run f (ops.filter fun op => decide (op ≠ user_operation.wait_for_write_complete)) =
        some f' := by
  induction ops with
  | nil =>
      intro f f' h
      simpa using h
  | cons op ops ih =>
      intro f f' h
      by_cases hw : op = user_operation.wait_for_write_complete
      · subst hw
        have h' : run f ops = some f' := by
          simpa [run, perform_user_operation, wait_for_write_complete] using h
        simpa [List.filter_cons] using ih f f' h'
      · simp only [run] at h
        rcases hstep : perform_user_operation f op with ⟨f1, e⟩
        rw [hstep] at h
        cases e with
        | some e => simp at h
        | none =>
            rw [List.filter_cons_of_pos (p := fun x => decide (x ≠ user_operation.wait_for_write_complete)) (decide_eq_true hw)]
            simp only [run]
            rw [hstep]
            exact ih f1 f' h

/-- Helper for C7: after a successful drive, the final log equals the initial
log followed by the non-wait operations performed. -/
theorem run_log (ops : List user_operation) :
    ∀ f f' : flash_sim, run f ops = some f' →
      f'.user_operations = f.user_operations ++
        ops.filter fun op => decide (op ≠ user_operation.wait_for_write_complete) := by
  induction ops with
  | nil =>
      intro f f' h
      simp only [run, Option.some.injEq] at h
      rw [← h]
      simp
  | cons op ops ih =>
      intro f f' h
      simp only [run] at h
      rcases hstep : perform_user_operation f op with ⟨f1, e⟩
      rw [hstep] at h
      cases e with
      | some e => simp at h
      | none =>
          have hlog := success_appends_log f op f1 hstep
          rw [ih f1 f' h, hlog]
          by_cases hw : op = user_operation.wait_for_write_complete
          · subst hw
            simp [List.filter_cons]
          · simp [List.filter_cons, hw]

/-- C7: for every error-free pin-toggle sequence applied to a fresh chip,
replaying the resulting operation log entry by entry through
`perform_user_operation` on a second chip of the same capacity reproduces the
same final memory array and the same final chip-enable, serial-input and
serial-output pin states. -/
theorem C7_log_replay_deterministic (n : Nat) (ops : List user_operation) (f' : flash_sim)
    (h : run (flash_sim.init n) ops = some f') :
    ∃ f'' : flash_sim,
      run (flash_sim.init n) f'.user_operations = some f'' ∧
      f''.data = f'.data ∧ f''.chip_enable = f'.chip_enable ∧
      f''.serial_input = f'.serial_input ∧ f''.serial_output = f'.serial_output := by
  refine ⟨f', ?_, rfl, rfl, rfl, rfl⟩
  rw [run_log ops (flash_sim.init n) f' h]
  simpa [flash_sim.init] using run_drop_wait ops (flash_sim.init n) f' h

/-- Witness for C7: a drive consisting of one chip-enable toggle and one
write-complete wait; the log replays to the same state. -/
theorem C7_log_replay_deterministic_witness :
    run (flash_sim.init 2)
        [user_operation.toggle_chip_enable, user_operation.wait_for_write_complete] =
      some { chip_enable := .high, serial_input := .low, serial_output := .low,
             chip_state := .command, write_enabled := false, bit_index := 8,
             instruction_register := 0, operation := none, data := [0, 0],
             user_operations := [.toggle_chip_enable] } ∧
    ∃ f'' : flash_sim,
      run (flash_sim.init 2)
          ({ chip_enable := .high, serial_input := .low, serial_output := .low,
             chip_state := .command, write_enabled := false, bit_index := 8,
             instruction_register := 0, operation := none, data := [0, 0],
             user_operations := [.toggle_chip_enable] } : flash_sim).user_operations =
        some f'' ∧
      f''.data = [0, 0] ∧ f''.chip_enable = pin_state.high ∧
      f''.serial_input = pin_state.low ∧ f''.serial_output = pin_state.low :=
  ⟨rfl, C7_log_replay_deterministic 2
      [user_operation.toggle_chip_enable, user_operation.wait_for_write_complete] _ rfl⟩


/-- Helper for C10: a single pin-toggle call — successful or failing —
preserves the structural invariant that the operation state carries an active
operation object and that a selected chip has a non-empty log. -/
theorem chip_inv_step (f : flash_sim) (op : user_operation)
    (h1 : f.chip_state = chip_state.operation → f.operation.isSome = true)
    (h2 : f.chip_state ≠ chip_state.deselected → f.user_operations ≠ []) :
    ((perform_user_operation f op).1.chip_state = chip_state.operation →
      (perform_user_operation f op).1.operation.isSome = true) ∧
    ((perform_user_operation f op).1.chip_state ≠ chip_state.deselected →
      (perform_user_operation f op).1.user_operations ≠ []) := by
  cases op with
  | wait_for_write_complete => exact ⟨h1, h2⟩
  | toggle_serial_input =>
      simp only [perform_user_operation]
      unfold toggle_serial_input
      split
      · exact ⟨h1, h2⟩
      · split
        · exact ⟨h1, h2⟩
        · constructor <;> intro hx <;> simp_all
      · split
        · exact ⟨h1, h2⟩
        · constructor <;> intro hx <;> simp_all
  | toggle_chip_enable =>
      simp only [perform_user_operation]
      unfold toggle_chip_enable
      split
      · constructor <;> intro hx <;> simp_all
      · exact ⟨h1, h2⟩
      · split
        · exact ⟨h1, h2⟩
        · split
          · constructor <;> intro hx <;> simp_all
          · constructor <;> intro hx <;> simp_all
  | toggle_clock =>
      simp only [perform_user_operation]
      unfold toggle_clock
      split
      · exact ⟨h1, h2⟩
      · split
        · split
          · constructor <;> intro hx <;> simp_all
          · constructor <;> intro hx <;> simp_all
        · constructor <;> intro hx <;> simp_all
      · split
        · exact ⟨h1, h2⟩
        · split
          · constructor <;> intro hx <;> simp_all
          · constructor <;> intro hx <;> simp_all

/-- Helper for C10: the invariant extends along any drive. -/
theorem chip_inv_run_all (ops : List user_operation) :
    ∀ f : flash_sim,
      (f.chip_state = chip_state.operation → f.operation.isSome = true) →
      (f.chip_state ≠ chip_state.deselected → f.user_operations ≠ []) →
      ((run_all f ops).chip_state = chip_state.operation →
        (run_all f ops).operation.isSome = true) ∧
      ((run_all f ops).chip_state ≠ chip_state.deselected →
        (run_all f ops).user_operations ≠ []) := by
  induction ops with
  | nil => intro f h1 h2; exact ⟨h1, h2⟩
  | cons op ops ih =>
      intro f h1 h2
      have hstep := chip_inv_step f op h1 h2
      simpa [run_all, List.foldl_cons] using
        ih (perform_user_operation f op).1 hstep.1 hstep.2

/-- C10: in every state reachable from a freshly constructed chip by any
sequence of pin-toggle calls (successful or failing, each call leaving the
post-call object state), the operation chip state implies an active operation
object is present, and the command or operation chip state implies the
operation log is non-empty — so the defensive null-operation branches and the
read of the log's last element never act on missing data. -/
theorem C10_reachable_state_invariants (n : Nat) (ops : List user_operation) :
    ((run_all (flash_sim.init n) ops).chip_state = chip_state.operation →
      (run_all (flash_sim.init n) ops).operation.isSome = true) ∧
    ((run_all (flash_sim.init n) ops).chip_state = chip_state.command ∨
     (run_all (flash_sim.init n) ops).chip_state = chip_state.operation →
      (run_all (flash_sim.init n) ops).user_operations ≠ []) := by
  have hinv := chip_inv_run_all ops (flash_sim.init n)
    (by intro hx; simp [flash_sim.init] at hx) (by intro hx; simp [flash_sim.init] at hx)
  refine ⟨hinv.1, fun hor => hinv.2 ?_⟩
  rcases hor with hx | hx <;> simp [hx]

/-- Witness for C10: a drive that performs a chip-enable toggle and clocks in
the write-enable opcode `0x06`, ending in the operation state. -/
theorem C10_reachable_state_invariants_witness :
    (run_all (flash_sim.init 2)
        [.toggle_chip_enable, .toggle_clock, .toggle_clock, .toggle_clock, .toggle_clock,
         .toggle_clock, .toggle_serial_input, .toggle_clock, .toggle_clock,
         .toggle_serial_input, .toggle_clock]).operation.isSome = true ∧
    (run_all (flash_sim.init 2)
        [.toggle_chip_enable, .toggle_clock, .toggle_clock, .toggle_clock, .toggle_clock,
         .toggle_clock, .toggle_serial_input, .toggle_clock, .toggle_clock,
         .toggle_serial_input, .toggle_clock]).user_operations ≠ [] :=
  ⟨(C10_reachable_state_invariants 2
      [.toggle_chip_enable, .toggle_clock, .toggle_clock, .toggle_clock, .toggle_clock,
       .toggle_clock, .toggle_serial_input, .toggle_clock, .toggle_clock,
       .toggle_serial_input, .toggle_clock]).1 (by decide),
   (C10_reachable_state_invariants 2
      [.toggle_chip_enable, .toggle_clock, .toggle_clock, .toggle_clock, .toggle_clock,
       .toggle_clock, .toggle_serial_input, .toggle_clock, .toggle_clock,
       .toggle_serial_input, .toggle_clock]).2 (Or.inr (by decide))⟩

end bedrock

